import Mathlib

/-!
Verification of the option-resolution module of sec-cvescan
(`cvescan/options.py`).  The module validates a bag of command-line
arguments plus a system-info record and produces a resolved
configuration object (the Python class `Options`), raising
`ArgumentError` (from `cvescan.errors`) or the builtin `ValueError`
(which the specification calls `ValidationError`) on invalid input.

The embedding below is a direct shallow translation of the source:
each Python `raise_on_*` validator becomes a function returning
`Option CVEScanError`, and the `Options.__init__` constructor becomes
`resolve`, which runs `raise_on_invalid_args` first and only then
computes the derived fields (`Options.build`).  Filesystem queries
(`os.path.abspath`, `os.path.isfile`, `os.getcwd`) are abstracted as a
`FileSystem` record of pure functions passed in explicitly.
-/

namespace CVEScan

/-- A raw argument bag as produced by the external CLI parser.  String-valued
optional arguments (`cve`, `file`, `manifest`, `oval_file`) default to Python
`None`, modelled as `Option String`; flags are booleans. -/
structure Args where
  cve : Option String
  experimental : Bool
  file : Option String
  manifest : Option String
  nagios : Bool
  uct_links : Bool
  oval_file : Option String
  priority : String
  silent : Bool
  unresolved : Bool
  verbose : Bool
deriving DecidableEq, Repr

/-- The external system-info collaborator; only `distrib_codename` is read. -/
structure SysInfo where
  distrib_codename : String
deriving DecidableEq, Repr

/-- Abstraction of the filesystem calls used by the source:
`os.path.abspath`, `os.path.isfile` and `os.getcwd`. -/
structure FileSystem where
  abspath : String → String
  isfile : String → Bool
  cwd : String

/-- Python truthiness of a possibly-`None` string: `None` and the empty
string are falsy, every other string is truthy. -/
def truthy : Option String → Bool
  | none => false
  | some s => !(s == "")

/-- The two error kinds of the module.  `argumentError` embeds
`cvescan.errors.ArgumentError`; `validationError` embeds the builtin
`ValueError` raised for a malformed CVE identifier, which the
specification names `ValidationError` (modelled from the spec: the class
`ArgumentError` lives in `cvescan/errors.py`, outside the given sources;
the spec describes both kinds and their trigger conditions). -/
inductive CVEScanError where
  | argumentError (msg : String)
  | validationError (msg : String)
deriving DecidableEq, Repr

/-- `True` exactly on the `argumentError` constructor. -/
def CVEScanError.isArgumentError : CVEScanError → Bool
  | .argumentError _ => true
  | .validationError _ => false

def FMT_CVE_OPTION : String := "-c|--cve"
def FMT_FILE_OPTION : String := "-f|--file"
def FMT_MANIFEST_OPTION : String := "-m|--manifest"
def FMT_NAGIOS_OPTION : String := "-n|--nagios"
def FMT_UCT_LINKS_OPTION : String := "--uct-links"
def FMT_OVAL_FILE_OPTION : String := "-o|--oval_file"
def FMT_SILENT_OPTION : String := "-s|--silent"
def FMT_UNRESOLVED_OPTION : String := "--unresolved"
def FMT_VERBOSE_OPTION : String := "-v|--verbose"

/-- Modelled from the spec: the fixed debug-log path `const.DEBUG_LOG`
owned by the external constants collaborator (`cvescan/constants.py` is
not among the given sources); its concrete value is irrelevant to every
claim. -/
def DEBUG_LOG : String := "/var/log/cvescan_debug.log"

/-- Does the character list starting here begin with `sub`? -/
def charsStartWith : List Char → List Char → Bool
  | [], _ => true
  | _ :: _, [] => false
  | a :: as, b :: bs => a == b && charsStartWith as bs

/-- Does `sub` occur as a contiguous run inside the second list? -/
def charsHaveSub (sub : List Char) : List Char → Bool
  | [] => charsStartWith sub []
  | b :: bs => charsStartWith sub (b :: bs) || charsHaveSub sub bs

/-- `mentions msg sub` holds when `sub` occurs verbatim inside `msg`. -/
def mentions (msg sub : String) : Bool :=
  charsHaveSub sub.data msg.data

/-- Full match of the core regular expression `CVE-[0-9]{4}-[0-9]{4,}`
against a character list: the literal `CVE-`, exactly four digits, a
dash, then at least four characters, all digits. -/
def cveChars : List Char → Bool
  | 'C' :: 'V' :: 'E' :: '-' :: y1 :: y2 :: y3 :: y4 :: '-' :: rest =>
      y1.isDigit && y2.isDigit && y3.isDigit && y4.isDigit &&
        decide (rest.length ≥ 4) && rest.all Char.isDigit
  | _ => false

/-- Python `re.match(r"^CVE-[0-9]{4}-[0-9]{4,}$", s)` as a Boolean: the
whole string matches the core pattern, or — because Python's `$` also
matches just before a newline that ends the string — the string is a
core match followed by a single trailing newline. -/
def pyFullMatchCVE (s : String) : Bool :=
  cveChars s.data ||
    (match s.data.getLast? with
     | some c => c == '\n' && cveChars s.data.dropLast
     | none => false)

/-- The specification's pattern, read literally: the whole string matches
`CVE-\d\x7b4\x7d-\d\x7b4,\x7d` (4-digit year, 4-or-more-digit sequence
number), with no allowance for a trailing newline. -/
def specCVEMatch (s : String) : Bool :=
  cveChars s.data

/-- Source `raise_on_invalid_cve`: raise `ValueError` when `args.cve` is
not `None` and `re.match` fails. -/
def raise_on_invalid_cve (args : Args) : Option CVEScanError :=
  match args.cve with
  | none => none
  | some c =>
      if pyFullMatchCVE c then none
      else some (.validationError ("Invalid CVE ID (" ++ c ++ ")"))

/-- Source `raise_incompatible_arguments_error`: the error it raises. -/
def raise_incompatible_arguments_error (arg1 arg2 : String) : CVEScanError :=
  .argumentError
    ("The " ++ arg1 ++ " and " ++ arg2 ++
      " options are incompatible and may not be specified together.")

/-- Source `raise_on_invalid_manifest_options`. -/
def raise_on_invalid_manifest_options (args : Args) : Option CVEScanError :=
  if truthy args.file && !truthy args.manifest then
    some (.argumentError
      ("Cannot specify " ++ FMT_FILE_OPTION ++ " argument without " ++
        FMT_MANIFEST_OPTION ++ "."))
  else none

/-- Source `raise_on_invalid_nagios_options`. -/
def raise_on_invalid_nagios_options (args : Args) : Option CVEScanError :=
  if !args.nagios then none
  else if truthy args.cve then
    some (raise_incompatible_arguments_error FMT_NAGIOS_OPTION FMT_CVE_OPTION)
  else if args.silent then
    some (raise_incompatible_arguments_error FMT_NAGIOS_OPTION FMT_SILENT_OPTION)
  else if args.unresolved then
    some (raise_incompatible_arguments_error FMT_NAGIOS_OPTION FMT_UNRESOLVED_OPTION)
  else if args.uct_links then
    some (raise_incompatible_arguments_error FMT_NAGIOS_OPTION FMT_UCT_LINKS_OPTION)
  else none

/-- Source `raise_on_invalid_silent_options`. -/
def raise_on_invalid_silent_options (args : Args) : Option CVEScanError :=
  if !args.silent then none
  else if !truthy args.cve then
    some (.argumentError
      ("Cannot specify " ++ FMT_SILENT_OPTION ++ " argument without " ++
        FMT_CVE_OPTION ++ "."))
  else if args.verbose then
    some (raise_incompatible_arguments_error FMT_SILENT_OPTION FMT_VERBOSE_OPTION)
  else if args.uct_links then
    some (raise_incompatible_arguments_error FMT_SILENT_OPTION FMT_UCT_LINKS_OPTION)
  else none

/-- Source `raise_on_invalid_unresolved_options`. -/
def raise_on_invalid_unresolved_options (args : Args) : Option CVEScanError :=
  if args.unresolved && truthy args.cve then
    some (raise_incompatible_arguments_error FMT_UNRESOLVED_OPTION FMT_CVE_OPTION)
  else if args.unresolved && args.nagios then
    some (raise_incompatible_arguments_error FMT_UNRESOLVED_OPTION FMT_NAGIOS_OPTION)
  else none

/-- First raised error of two sequential checks: Python exception
propagation, the first `raise` wins. -/
def firstErr : Option CVEScanError → Option CVEScanError → Option CVEScanError
  | some e, _ => some e
  | none, b => b

/-- Source `raise_on_invalid_combinations`: the four combination checks
in source order. -/
def raise_on_invalid_combinations (args : Args) : Option CVEScanError :=
  firstErr (raise_on_invalid_manifest_options args)
    (firstErr (raise_on_invalid_nagios_options args)
      (firstErr (raise_on_invalid_silent_options args)
        (raise_on_invalid_unresolved_options args)))

/-- Source `raise_on_missing_file`: skip falsy paths, otherwise require
`os.path.isfile(os.path.abspath(path))`. -/
def raise_on_missing_file (fs : FileSystem) (file_path : Option String) :
    Option CVEScanError :=
  match file_path with
  | none => none
  | some p =>
      if p == "" then none
      else
        let file_abs_path := fs.abspath p
        if fs.isfile file_abs_path then none
        else some (.argumentError
          ("Cannot find file \"" ++ file_abs_path ++
            "\". Current working directory is \"" ++ fs.cwd ++ "\"."))

/-- Source `raise_on_missing_manifest_file`. -/
def raise_on_missing_manifest_file (fs : FileSystem) (args : Args) :
    Option CVEScanError :=
  raise_on_missing_file fs args.file

/-- Source `raise_on_missing_oval_file`. -/
def raise_on_missing_oval_file (fs : FileSystem) (args : Args) :
    Option CVEScanError :=
  raise_on_missing_file fs args.oval_file

/-- Source `raise_on_invalid_args`: all validation in source order. -/
def raise_on_invalid_args (fs : FileSystem) (args : Args) :
    Option CVEScanError :=
  firstErr (raise_on_invalid_cve args)
    (firstErr (raise_on_invalid_combinations args)
      (firstErr (raise_on_missing_manifest_file fs args)
        (raise_on_missing_oval_file fs args)))

/-- The resolved configuration: the attributes the Python `Options`
object carries after `__init__`.  `oval_zip` is an `Option` because the
source's `_set_oval_file_options` returns early when an explicit
`oval_file` is supplied, leaving the `oval_zip` attribute unassigned. -/
structure Options where
  manifest_mode : Bool
  experimental_mode : Bool
  nagios_mode : Bool
  distrib_codename : String
  oval_base_url : Option String
  oval_file : String
  oval_zip : Option String
  manifest_file : Option String
  manifest_url : Option String
  verbose_oscap_options : String
  cve : Option String
  priority : String
  unresolved : Bool
  uct_links : Bool
deriving DecidableEq, Repr

/-- Source property `Options.download_oval_file`:
`self.oval_base_url is not None`. -/
def Options.download_oval_file (o : Options) : Bool :=
  o.oval_base_url.isSome

/-- The derivation part of `Options.__init__`: `_set_mode`,
`_set_distrib_codename`, `_set_oval_file_options`,
`_set_manifest_file_options`, `_set_output_verbosity` and the plain
attribute copies, in source order. -/
def Options.build (fs : FileSystem) (args : Args) (sysinfo : SysInfo) :
    Options :=
  let manifest_mode := truthy args.manifest
  let experimental_mode := args.experimental
  let nagios_mode := args.nagios
  let distrib_codename :=
    if manifest_mode then args.manifest.getD "" else sysinfo.distrib_codename
  let oval :=
    if truthy args.oval_file then
      ((none : Option String), args.oval_file.getD "", (none : Option String))
    else
      let base := "https://people.canonical.com/~ubuntu-security/oval"
      let f := "com.ubuntu." ++ distrib_codename ++ ".cve.oval.xml"
      let f := if manifest_mode then "oci." ++ f else f
      let base := if experimental_mode then base ++ "/alpha" else base
      let f := if experimental_mode then "alpha." ++ f else f
      (some base, f, some (f ++ ".bz2"))
  let manifest_url_tmp :=
    "https://cloud-images.ubuntu.com/" ++ distrib_codename ++ "/current/" ++
      distrib_codename ++ "-server-cloudimg-amd64.manifest"
  let manifest_file :=
    if truthy args.file then some (fs.abspath (args.file.getD "")) else none
  let manifest_url :=
    if manifest_mode && !truthy args.file then some manifest_url_tmp else none
  let verbose_oscap_options :=
    if args.verbose then
      "--verbose WARNING --verbose-log-file " ++ DEBUG_LOG
    else ""
  { manifest_mode := manifest_mode
    experimental_mode := experimental_mode
    nagios_mode := nagios_mode
    distrib_codename := distrib_codename
    oval_base_url := oval.1
    oval_file := oval.2.1
    oval_zip := oval.2.2
    manifest_file := manifest_file
    manifest_url := manifest_url
    verbose_oscap_options := verbose_oscap_options
    cve := args.cve
    priority := args.priority
    unresolved := args.unresolved
    uct_links := args.uct_links }

/-- `Options.__init__` as a whole: validate first (`raise_on_invalid_args`
is its first statement), and only on success compute the derived fields.
An exception aborts construction, so no partial object escapes. -/
def resolve (fs : FileSystem) (args : Args) (sysinfo : SysInfo) :
    Except CVEScanError Options :=
  match raise_on_invalid_args fs args with
  | some e => .error e
  | none => .ok (Options.build fs args sysinfo)

/-- All-false / all-`None` argument bag, the base for concrete inputs. -/
def argsDefault : Args :=
  { cve := none, experimental := false, file := none, manifest := none,
    nagios := false, uct_links := false, oval_file := none,
    priority := "high", silent := false, unresolved := false,
    verbose := false }

/-- A filesystem on which every file exists; absolute paths are made by
prefixing the working directory. -/
def fsAll : FileSystem :=
  { abspath := fun p => "/cwd/" ++ p, isfile := fun _ => true, cwd := "/cwd" }

/-- A filesystem on which no file exists. -/
def fsNone : FileSystem :=
  { abspath := fun p => "/cwd/" ++ p, isfile := fun _ => false, cwd := "/cwd" }

/-- A system-info record for a host running an Ubuntu "bionic" system. -/
def sysBionic : SysInfo := { distrib_codename := "bionic" }

/-- The message carried by either error kind. -/
def CVEScanError.msg : CVEScanError → String
  | .argumentError m => m
  | .validationError m => m

/-- The first conflicting option the nagios check trips over, in the
source's test order: `cve`, `silent`, `unresolved`, `uct_links`. -/
def nagiosConflict (args : Args) : String :=
  if truthy args.cve then FMT_CVE_OPTION
  else if args.silent then FMT_SILENT_OPTION
  else if args.unresolved then FMT_UNRESOLVED_OPTION
  else FMT_UCT_LINKS_OPTION

/-- The validation pipeline as the specification words it: CVE format
first, then the mutual-exclusion rules (file/manifest, nagios, silent,
unresolved), then file existence (manifest file, then oval file), each
independent, first failure wins. -/
def specFirstFailure (fs : FileSystem) (args : Args) : Option CVEScanError :=
  firstErr (raise_on_invalid_cve args)
    (firstErr (raise_on_invalid_manifest_options args)
      (firstErr (raise_on_invalid_nagios_options args)
        (firstErr (raise_on_invalid_silent_options args)
          (firstErr (raise_on_invalid_unresolved_options args)
            (firstErr (raise_on_missing_file fs args.file)
              (raise_on_missing_file fs args.oval_file))))))

theorem charsStartWith_self_append (s t : List Char) :
    charsStartWith s (s ++ t) = true := by
  induction s with
  | nil => rfl
  | cons a as ih => simp [charsStartWith, ih]

theorem charsHaveSub_self_append (s t : List Char) :
    charsHaveSub s (s ++ t) = true := by
  cases s with
  | nil =>
      cases t with
      | nil => rfl
      | cons b bs => simp [charsHaveSub, charsStartWith]
  | cons a as =>
      rw [List.cons_append]
      simp [charsHaveSub, charsStartWith, charsStartWith_self_append]

theorem charsHaveSub_append_left (p l s : List Char)
    (h : charsHaveSub s l = true) : charsHaveSub s (p ++ l) = true := by
  induction p with
  | nil => simpa using h
  | cons c cs ih => simp [charsHaveSub, ih]

/-- A string occurring literally between two others is mentioned by the
concatenation. -/
theorem mentions_mid (x s y : String) : mentions (x ++ s ++ y) s = true := by
  unfold mentions
  rw [String.data_append, String.data_append]
  rw [List.append_assoc]
  exact charsHaveSub_append_left _ _ _ (charsHaveSub_self_append _ _)

/-- The incompatible-arguments error message mentions both option names. -/
theorem mentions_incompatible_arguments (a b : String) :
    mentions (raise_incompatible_arguments_error a b).msg a = true ∧
    mentions (raise_incompatible_arguments_error a b).msg b = true := by
  constructor
  · have h := mentions_mid "The " a
      (" and " ++ b ++ " options are incompatible and may not be specified together.")
    simp only [raise_incompatible_arguments_error, CVEScanError.msg]
    simpa [String.append_assoc] using h
  · have h := mentions_mid ("The " ++ a ++ " and ") b
      " options are incompatible and may not be specified together."
    simp only [raise_incompatible_arguments_error, CVEScanError.msg]
    simpa [String.append_assoc] using h

/-- The missing-file error message mentions the absolute path and the
working directory. -/
theorem mentions_missing_file (a c : String) :
    mentions ("Cannot find file \"" ++ a ++
      "\". Current working directory is \"" ++ c ++ "\".") a = true ∧
    mentions ("Cannot find file \"" ++ a ++
      "\". Current working directory is \"" ++ c ++ "\".") c = true := by
  constructor
  · have h := mentions_mid "Cannot find file \"" a
      ("\". Current working directory is \"" ++ c ++ "\".")
    simpa [String.append_assoc] using h
  · have h := mentions_mid ("Cannot find file \"" ++ a ++
      "\". Current working directory is \"") c "\"."
    simpa [String.append_assoc] using h

/-- C6: for the input `manifest="focal"` with no explicit file, no explicit
oval_file, and experimental not set, resolution succeeds and yields
`oval_file = "oci.com.ubuntu.focal.cve.oval.xml"`,
`oval_base_url = "https://people.canonical.com/~ubuntu-security/oval"` and
`manifest_url =
"https://cloud-images.ubuntu.com/focal/current/focal-server-cloudimg-amd64.manifest"`. -/
theorem C6_focal_defaults :
    (resolve fsNone { argsDefault with manifest := some "focal" } sysBionic).map
      (fun o => (o.oval_file, o.oval_base_url, o.manifest_url)) =
    .ok ("oci.com.ubuntu.focal.cve.oval.xml",
      some "https://people.canonical.com/~ubuntu-security/oval",
      some "https://cloud-images.ubuntu.com/focal/current/focal-server-cloudimg-amd64.manifest") := by
  rfl

/-- C7: for the input `manifest="focal"`, no explicit file, no explicit
oval_file, and `experimental=true`, resolution yields
`oval_file = "alpha.oci.com.ubuntu.focal.cve.oval.xml"` and an
`oval_base_url` that ends with `/alpha`. -/
theorem C7_focal_experimental :
    (resolve fsNone
        { argsDefault with manifest := some "focal", experimental := true }
        sysBionic).map (fun o => (o.oval_file, o.oval_base_url)) =
    .ok ("alpha.oci.com.ubuntu.focal.cve.oval.xml",
      some ("https://people.canonical.com/~ubuntu-security/oval" ++ "/alpha")) := by
  rfl

/-- C10: a present-but-empty `cve` string is rejected by the malformed-CVE
check (which tests `cve is not None`), while the nagios-with-cve and
unresolved-with-cve mutual-exclusion checks see the empty string as falsy
and raise nothing, and the silent check demands a truthy `cve` and raises
its missing-cve error. -/
theorem C10_empty_cve :
    resolve fsNone { argsDefault with cve := some "" } sysBionic =
      .error (.validationError "Invalid CVE ID ()") ∧
    raise_on_invalid_nagios_options
      { argsDefault with nagios := true, cve := some "" } = none ∧
    raise_on_invalid_silent_options
      { argsDefault with silent := true, cve := some "" } =
      some (.argumentError "Cannot specify -s|--silent argument without -c|--cve.") ∧
    raise_on_invalid_unresolved_options
      { argsDefault with unresolved := true, cve := some "" } = none := by
  exact ⟨rfl, rfl, rfl, rfl⟩

/-- C1 counterexample: the string `"CVE-2020-1234\n"` does not match the
pattern `CVE-<4-digit year>-<4-or-more-digit number>` (it carries a
trailing newline), yet the cve validation does not raise, because
Python's `$` anchor also matches just before a newline that ends the
string; so "raises iff present and not matching" fails left-to-right. -/
theorem C1_trailing_newline_counterexample :
    raise_on_invalid_cve { argsDefault with cve := some "CVE-2020-1234\n" } = none ∧
    specCVEMatch "CVE-2020-1234\n" = false := by
  exact ⟨rfl, rfl⟩

/-- C2 counterexample: with an explicitly supplied (and existing)
`oval_file`, resolution succeeds but the source's
`_set_oval_file_options` returns before ever assigning `oval_zip`, so
the resolved configuration has no `oval_zip` value at all, not
`oval_file + ".bz2"`. -/
theorem C2_explicit_oval_counterexample :
    (resolve fsAll { argsDefault with oval_file := some "/tmp/local.xml" }
        sysBionic).map (fun o => (o.oval_zip, o.oval_file)) =
      .ok (none, "/tmp/local.xml") ∧
    (none : Option String) ≠ some ("/tmp/local.xml" ++ ".bz2") := by
  exact ⟨rfl, fun h => Option.noConfusion h⟩

/-- C3 counterexample: with `nagios` set together with a (malformed) `cve`,
resolution raises the malformed-CVE `ValueError` — the CVE check runs
before the nagios mutual-exclusion check — not an ArgumentError naming
the two conflicting options. -/
theorem C3_nagios_bad_cve_counterexample :
    resolve fsNone { argsDefault with nagios := true, cve := some "foo" }
      sysBionic = .error (.validationError "Invalid CVE ID (foo)") ∧
    (CVEScanError.validationError "Invalid CVE ID (foo)").isArgumentError = false := by
  exact ⟨rfl, rfl⟩

/-- C4 counterexample: with `file` set, `manifest` unset, and a malformed
`cve` also present, resolution raises the malformed-CVE `ValueError`
(the CVE check runs first), not an ArgumentError. -/
theorem C4_file_bad_cve_counterexample :
    resolve fsAll { argsDefault with file := some "manifest.txt", cve := some "bad" }
      sysBionic = .error (.validationError "Invalid CVE ID (bad)") ∧
    (CVEScanError.validationError "Invalid CVE ID (bad)").isArgumentError = false := by
  exact ⟨rfl, rfl⟩

/-- C5 counterexample: with `file` set to a nonexistent path and `manifest`
unset, resolution raises the file-without-manifest ArgumentError — the
mutual-exclusion checks run before the file-existence check — whose
message mentions neither the resolved absolute path `/cwd/nope` nor the
working directory `/cwd`. -/
theorem C5_missing_file_counterexample :
    resolve fsNone { argsDefault with file := some "nope" } sysBionic =
      .error (.argumentError
        "Cannot specify -f|--file argument without -m|--manifest.") ∧
    mentions "Cannot specify -f|--file argument without -m|--manifest."
      "/cwd/nope" = false ∧
    mentions "Cannot specify -f|--file argument without -m|--manifest."
      "/cwd" = false := by
  exact ⟨rfl, rfl, rfl⟩

/-- A successful resolution returns exactly the derived configuration. -/
theorem resolve_ok_build (fs : FileSystem) (args : Args) (si : SysInfo)
    (cfg : Options) (hok : resolve fs args si = .ok cfg) :
    cfg = Options.build fs args si := by
  unfold resolve at hok
  cases h : raise_on_invalid_args fs args with
  | some e => rw [h] at hok; exact absurd hok (by simp)
  | none => rw [h] at hok; exact (Except.ok.injEq _ _ ▸ hok).symm

/-- C1 (amended): the cve validation raises the malformed-CVE error
(spec's ValidationError) exactly when `cve` is present and fails Python's
`re.match` of `^CVE-[0-9]\x7b4\x7d-[0-9]\x7b4,\x7d$` — which accepts the
pattern optionally followed by one trailing newline; a `None` cve never
raises, and every string fully matching the spec's pattern
`CVE-\d\x7b4\x7d-\d\x7b4,\x7d` passes the Python match, so it never
raises. -/
theorem C1_cve_validation :
    (∀ (args : Args) (s : String), args.cve = some s →
      (raise_on_invalid_cve args =
          some (.validationError ("Invalid CVE ID (" ++ s ++ ")")) ↔
        pyFullMatchCVE s = false)) ∧
    (∀ args : Args, args.cve = none → raise_on_invalid_cve args = none) ∧
    (∀ s : String, specCVEMatch s = true → pyFullMatchCVE s = true) := by
  refine ⟨?_, ?_, ?_⟩
  · intro args s hs
    by_cases h : pyFullMatchCVE s
    · simp [raise_on_invalid_cve, hs, h]
    · simp [raise_on_invalid_cve, hs, h]
  · intro args hn
    simp [raise_on_invalid_cve, hn]
  · intro s h
    simp only [specCVEMatch] at h
    simp [pyFullMatchCVE, h]

/-- Witness for C1 (amended): the concrete CVE identifier
`CVE-2021-44228` matches the spec's pattern and hence the Python match. -/
theorem C1_cve_validation_witness :
    specCVEMatch "CVE-2021-44228" = true ∧
      pyFullMatchCVE "CVE-2021-44228" = true :=
  ⟨rfl, C1_cve_validation.2.2 "CVE-2021-44228" rfl⟩

/-- C2 (amended): on every successful resolution, if `oval_file` was not
explicitly supplied then `oval_zip = oval_file ++ ".bz2"`; if it was
explicitly supplied, the early return in `_set_oval_file_options` leaves
`oval_zip` unassigned. -/
theorem C2_oval_zip :
    ∀ (fs : FileSystem) (args : Args) (si : SysInfo) (cfg : Options),
      resolve fs args si = .ok cfg →
      (truthy args.oval_file = false →
        cfg.oval_zip = some (cfg.oval_file ++ ".bz2")) ∧
      (truthy args.oval_file = true → cfg.oval_zip = none) := by
  intro fs args si cfg hok
  have hcfg : cfg = Options.build fs args si := resolve_ok_build fs args si cfg hok
  subst hcfg
  constructor
  · intro ht
    simp [Options.build, ht]
  · intro ht
    simp [Options.build, ht]

/-- Witness for C2 (amended): a concrete successful resolution without an
explicit oval_file, on which `oval_zip` is the `.bz2` name. -/
theorem C2_oval_zip_witness :
    (Options.build fsNone { argsDefault with manifest := some "focal" }
        sysBionic).oval_zip =
      some ((Options.build fsNone { argsDefault with manifest := some "focal" }
        sysBionic).oval_file ++ ".bz2") :=
  (C2_oval_zip fsNone { argsDefault with manifest := some "focal" } sysBionic
      (Options.build fsNone { argsDefault with manifest := some "focal" }
        sysBionic) rfl).1 rfl

/-- C3 (amended): when `nagios` is set together with a truthy `cve`, or
with `silent`, `unresolved` or `uct_links`, and the checks that run
earlier pass (the cve format check and the file-without-manifest check),
resolution raises the ArgumentError produced by
`raise_incompatible_arguments_error` for nagios and the first conflicting
option, whose message mentions both option names. -/
theorem C3_nagios_exclusion :
    ∀ (fs : FileSystem) (args : Args) (si : SysInfo),
      args.nagios = true →
      raise_on_invalid_cve args = none →
      raise_on_invalid_manifest_options args = none →
      (truthy args.cve = true ∨ args.silent = true ∨ args.unresolved = true ∨
        args.uct_links = true) →
      resolve fs args si = .error (raise_incompatible_arguments_error
        FMT_NAGIOS_OPTION (nagiosConflict args)) ∧
      mentions (raise_incompatible_arguments_error FMT_NAGIOS_OPTION
        (nagiosConflict args)).msg FMT_NAGIOS_OPTION = true ∧
      mentions (raise_incompatible_arguments_error FMT_NAGIOS_OPTION
        (nagiosConflict args)).msg (nagiosConflict args) = true := by
  intro fs args si hn hcve hman hconf
  have hnag : raise_on_invalid_nagios_options args =
      some (raise_incompatible_arguments_error FMT_NAGIOS_OPTION
        (nagiosConflict args)) := by
    by_cases hc : truthy args.cve = true
    · simp [raise_on_invalid_nagios_options, nagiosConflict, hn, hc]
    · by_cases hs : args.silent = true
      · simp [raise_on_invalid_nagios_options, nagiosConflict, hn, hc, hs]
      · by_cases hu : args.unresolved = true
        · simp [raise_on_invalid_nagios_options, nagiosConflict, hn, hc, hs, hu]
        · have hl : args.uct_links = true := by
            rcases hconf with h | h | h | h
            · exact absurd h hc
            · exact absurd h hs
            · exact absurd h hu
            · exact h
          simp [raise_on_invalid_nagios_options, nagiosConflict, hn, hc, hs, hu, hl]
  have hargs : raise_on_invalid_args fs args =
      some (raise_incompatible_arguments_error FMT_NAGIOS_OPTION
        (nagiosConflict args)) := by
    unfold raise_on_invalid_args raise_on_invalid_combinations
    rw [hcve, hman, hnag]
    rfl
  refine ⟨?_, (mentions_incompatible_arguments _ _).1,
    (mentions_incompatible_arguments _ _).2⟩
  unfold resolve
  rw [hargs]

/-- Witness for C3 (amended): nagios together with silent on a concrete
input raises the nagios/silent incompatibility error. -/
theorem C3_nagios_exclusion_witness :
    resolve fsNone { argsDefault with nagios := true, silent := true }
      sysBionic = .error (raise_incompatible_arguments_error FMT_NAGIOS_OPTION
        (nagiosConflict { argsDefault with nagios := true, silent := true })) :=
  (C3_nagios_exclusion fsNone
      { argsDefault with nagios := true, silent := true } sysBionic
      rfl rfl rfl (Or.inr (Or.inl rfl))).1

/-- C4 (amended): when `file` is truthy, `manifest` is not, and the cve
format check (which runs earlier) passes, resolution raises the
file-without-manifest ArgumentError. -/
theorem C4_file_requires_manifest :
    ∀ (fs : FileSystem) (args : Args) (si : SysInfo),
      truthy args.file = true → truthy args.manifest = false →
      raise_on_invalid_cve args = none →
      resolve fs args si = .error (.argumentError
        "Cannot specify -f|--file argument without -m|--manifest.") := by
  intro fs args si hf hm hcve
  have hman : raise_on_invalid_manifest_options args =
      some (.argumentError
        "Cannot specify -f|--file argument without -m|--manifest.") := by
    simp only [raise_on_invalid_manifest_options, hf, hm]
    rfl
  have hargs : raise_on_invalid_args fs args =
      some (.argumentError
        "Cannot specify -f|--file argument without -m|--manifest.") := by
    unfold raise_on_invalid_args raise_on_invalid_combinations
    rw [hcve, hman]
    rfl
  unfold resolve
  rw [hargs]

/-- Witness for C4 (amended): a concrete input with a file and no
manifest raises the file-without-manifest error. -/
theorem C4_file_requires_manifest_witness :
    resolve fsAll { argsDefault with file := some "manifest.txt" } sysBionic =
      .error (.argumentError
        "Cannot specify -f|--file argument without -m|--manifest.") :=
  C4_file_requires_manifest fsAll
    { argsDefault with file := some "manifest.txt" } sysBionic rfl rfl rfl

/-- C5 (amended): when `file` names a nonexistent path and every earlier
check passes (cve format, all mutual-exclusion checks), resolution raises
an ArgumentError whose message mentions the resolved absolute path and
the working directory; the same holds independently for an explicitly
supplied `oval_file` once the manifest-file check has also passed. -/
theorem C5_missing_file_error :
    (∀ (fs : FileSystem) (args : Args) (si : SysInfo) (p : String),
      args.file = some p → p ≠ "" →
      raise_on_invalid_cve args = none →
      raise_on_invalid_combinations args = none →
      fs.isfile (fs.abspath p) = false →
      resolve fs args si = .error (.argumentError
        ("Cannot find file \"" ++ fs.abspath p ++
          "\". Current working directory is \"" ++ fs.cwd ++ "\".")) ∧
      mentions ("Cannot find file \"" ++ fs.abspath p ++
        "\". Current working directory is \"" ++ fs.cwd ++ "\".")
        (fs.abspath p) = true ∧
      mentions ("Cannot find file \"" ++ fs.abspath p ++
        "\". Current working directory is \"" ++ fs.cwd ++ "\".")
        fs.cwd = true) ∧
    (∀ (fs : FileSystem) (args : Args) (si : SysInfo) (q : String),
      args.oval_file = some q → q ≠ "" →
      raise_on_invalid_cve args = none →
      raise_on_invalid_combinations args = none →
      raise_on_missing_manifest_file fs args = none →
      fs.isfile (fs.abspath q) = false →
      resolve fs args si = .error (.argumentError
        ("Cannot find file \"" ++ fs.abspath q ++
          "\". Current working directory is \"" ++ fs.cwd ++ "\".")) ∧
      mentions ("Cannot find file \"" ++ fs.abspath q ++
        "\". Current working directory is \"" ++ fs.cwd ++ "\".")
        (fs.abspath q) = true ∧
      mentions ("Cannot find file \"" ++ fs.abspath q ++
        "\". Current working directory is \"" ++ fs.cwd ++ "\".")
        fs.cwd = true) := by
  constructor
  · intro fs args si p hp hpne hcve hcomb hisfile
    have hmf : raise_on_missing_manifest_file fs args =
        some (.argumentError
          ("Cannot find file \"" ++ fs.abspath p ++
            "\". Current working directory is \"" ++ fs.cwd ++ "\".")) := by
      simp [raise_on_missing_manifest_file, raise_on_missing_file, hp, hpne,
        hisfile]
    have hargs : raise_on_invalid_args fs args =
        some (.argumentError
          ("Cannot find file \"" ++ fs.abspath p ++
            "\". Current working directory is \"" ++ fs.cwd ++ "\".")) := by
      unfold raise_on_invalid_args
      rw [hcve, hcomb, hmf]
      rfl
    refine ⟨?_, (mentions_missing_file _ _).1, (mentions_missing_file _ _).2⟩
    unfold resolve
    rw [hargs]
  · intro fs args si q hq hqne hcve hcomb hmf hisfile
    have hof : raise_on_missing_oval_file fs args =
        some (.argumentError
          ("Cannot find file \"" ++ fs.abspath q ++
            "\". Current working directory is \"" ++ fs.cwd ++ "\".")) := by
      simp [raise_on_missing_oval_file, raise_on_missing_file, hq, hqne,
        hisfile]
    have hargs : raise_on_invalid_args fs args =
        some (.argumentError
          ("Cannot find file \"" ++ fs.abspath q ++
            "\". Current working directory is \"" ++ fs.cwd ++ "\".")) := by
      unfold raise_on_invalid_args
      rw [hcve, hcomb, hmf, hof]
      rfl
    refine ⟨?_, (mentions_missing_file _ _).1, (mentions_missing_file _ _).2⟩
    unfold resolve
    rw [hargs]

/-- Witness for C5 (amended): a concrete nonexistent manifest file (with
manifest mode on, so the mutual-exclusion checks pass) raises the
cannot-find-file error for its absolute path. -/
theorem C5_missing_file_error_witness :
    resolve fsNone
      { argsDefault with file := some "nope", manifest := some "focal" }
      sysBionic = .error (.argumentError
        ("Cannot find file \"" ++ fsNone.abspath "nope" ++
          "\". Current working directory is \"" ++ fsNone.cwd ++ "\".")) :=
  (C5_missing_file_error.1 fsNone
      { argsDefault with file := some "nope", manifest := some "focal" }
      sysBionic "nope" rfl (by decide) rfl rfl rfl).1

/-- C8: on every successful resolution with an explicitly supplied
(truthy) `oval_file`, the resolved configuration carries that value
verbatim as `oval_file`, its `oval_base_url` is `None`, and the derived
`download_oval_file` property is false. -/
theorem C8_explicit_oval_file :
    ∀ (fs : FileSystem) (args : Args) (si : SysInfo) (s : String)
      (cfg : Options),
      args.oval_file = some s → s ≠ "" →
      resolve fs args si = .ok cfg →
      cfg.oval_file = s ∧ cfg.oval_base_url = none ∧
        cfg.download_oval_file = false := by
  intro fs args si s cfg hs hne hok
  have hcfg : cfg = Options.build fs args si := resolve_ok_build fs args si cfg hok
  subst hcfg
  have ht : truthy (some s) = true := by simp [truthy, hne]
  refine ⟨?_, ?_, ?_⟩ <;>
    simp [Options.build, Options.download_oval_file, hs, ht]

/-- Witness for C8: a concrete resolution with an explicit, existing
oval file. -/
theorem C8_explicit_oval_file_witness :
    (Options.build fsAll { argsDefault with oval_file := some "/tmp/local.xml" }
        sysBionic).oval_file = "/tmp/local.xml" ∧
    (Options.build fsAll { argsDefault with oval_file := some "/tmp/local.xml" }
        sysBionic).oval_base_url = none ∧
    (Options.build fsAll { argsDefault with oval_file := some "/tmp/local.xml" }
        sysBionic).download_oval_file = false :=
  C8_explicit_oval_file fsAll
    { argsDefault with oval_file := some "/tmp/local.xml" } sysBionic
    "/tmp/local.xml"
    (Options.build fsAll { argsDefault with oval_file := some "/tmp/local.xml" }
      sysBionic)
    rfl (by decide) rfl

theorem firstErr_assoc (a b c : Option CVEScanError) :
    firstErr (firstErr a b) c = firstErr a (firstErr b c) := by
  cases a <;> rfl

/-- C9: resolution equals the specification's pipeline — the validation
checks run in the fixed order (CVE format, then the mutual-exclusion
rules, then file existence), the first failing check's error is raised
and nothing of the configuration is built; only when every check passes
is the full derived configuration returned. -/
theorem C9_validation_order :
    ∀ (fs : FileSystem) (args : Args) (si : SysInfo),
      resolve fs args si =
        match specFirstFailure fs args with
        | some e => .error e
        | none => .ok (Options.build fs args si) := by
  intro fs args si
  have h : raise_on_invalid_args fs args = specFirstFailure fs args := by
    unfold raise_on_invalid_args raise_on_invalid_combinations
      specFirstFailure raise_on_missing_manifest_file raise_on_missing_oval_file
    simp only [firstErr_assoc]
  unfold resolve
  rw [h]

end CVEScan
